import Mathlib

/-!
Shallow embedding of the SimpleThresholdBot threshold-trading core
(src/bot_kraken.py): the per-tick decision state machine, the strategy
state and its JSON persistence, the status snapshot, and the rolling
24-hour price window.  Python floats are modelled as rationals; the
exchange gateway's fallible reads and order outcomes are tick inputs;
the `assert self.entry_price is not None` in the holding branch is
modelled by `tick` returning `none` when it would fail.
-/

namespace ThresholdBot

/-- Tags the code writes into the snapshot's last-action field
(the various string literals passed to `_update_status`). -/
inductive LastAction where
  | loaded
  | buy
  | buy_skipped_insufficient_usd
  | buy_simulated
  | sell
  | sell_skipped_no_xmr
  | sell_simulated
  deriving DecidableEq

/-- Display mode: `"SELL MODE" if self.position_qty > 0 else "BUY MODE"`. -/
inductive Mode where
  | sellMode
  | buyMode
  deriving DecidableEq

/-- The four durable strategy fields of the bot
(`position_qty`, `entry_price`, `last_sell_price`, `session_high`). -/
structure StrategyState where
  position_qty : ℚ
  entry_price : Option ℚ
  last_sell_price : Option ℚ
  session_high : Option ℚ
  deriving DecidableEq

/-- The JSON record written by `_save_state` / read by `_load_state`
(ignoring the informational timestamp).  A `none` field is a JSON null or
missing key. -/
structure StateRecord where
  position_qty : Option ℚ
  entry_price : Option ℚ
  last_sell_price : Option ℚ
  session_high : Option ℚ
  deriving DecidableEq

/-- Serialization in `_save_state`: writes every field; `position_qty` is always present. -/
def save_state (s : StrategyState) : StateRecord :=
  ⟨some s.position_qty, s.entry_price, s.last_sell_price, s.session_high⟩

/-- Deserialization in `_load_state`: `position_qty = float(state.get("position_qty", 0.0))`;
the optionals are taken as-is (absent stays absent). -/
def load_state (r : StateRecord) : StrategyState :=
  ⟨r.position_qty.getD 0, r.entry_price, r.last_sell_price, r.session_high⟩

/-- The `_last_status` snapshot dictionary (the constant `pair` key is
omitted; the string timestamp is modelled by the tick's clock reading). -/
structure Status where
  timestamp : Option ℚ
  price : Option ℚ
  session_high : Option ℚ
  entry_price : Option ℚ
  position_qty : ℚ
  usd_available : Option ℚ
  xmr_available : Option ℚ
  drop_threshold_price : Option ℚ
  rise_threshold_price : Option ℚ
  price_24h_start : Option ℚ
  price_24h_change_pct : Option ℚ
  mode : Option Mode
  last_sell_price : Option ℚ
  last_action : Option LastAction
  trading_enabled : Bool
  deriving DecidableEq

/-- Strategy parameters read from the environment in `__init__`. -/
structure Config where
  drop_pct : ℚ
  rise_pct : ℚ
  min_trade_usd : ℚ
  max_position_usd : ℚ
  trading_enabled : Bool
  deriving DecidableEq

/-- Everything one `tick` reads from the outside world: the ticker price
(`none` = fetch failed), the clock, the wall-clock hour, the balances
(`none` = fetch failed, treated as empty dict), and whether a buy / sell
order call would return a truthy result. -/
structure TickInput where
  price : Option ℚ
  now : ℚ
  hour : ℤ
  balances : Option (ℚ × ℚ)
  buy_order_ok : Bool
  sell_order_ok : Bool
  deriving DecidableEq

/-- The bot's mutable in-memory state: the strategy fields, the
`_loaded_from_state` flag, the hourly-log marker, the rolling price
history (front = oldest), and the status snapshot. -/
structure BotState where
  strat : StrategyState
  loaded_from_state : Bool
  last_status_log_hour : Option ℤ
  price_history : List (ℚ × ℚ)
  status : Status
  deriving DecidableEq

/-- Result of one tick: the new bot state plus the tick's observable
effects (`saved` = `_save_state` was called, `order_placed` = a gateway
order call was made) and which decision signal fired. -/
structure TickResult where
  state : BotState
  saved : Bool
  order_placed : Bool
  buy_signal : Bool
  sell_signal : Bool
  deriving DecidableEq

/-- The position-zeroing epsilon `1e-8`. -/
def epsilon : ℚ := 1 / 100000000

/-- The 24-hour eviction span `24 * 60 * 60` seconds. -/
def seconds_24h : ℚ := 24 * 60 * 60

/-- The window insert `_update_price_history`: append `(now_ts, price)` then
pop from the front while the front timestamp is older than `now_ts - 24h`. -/
def update_price_history (hist : List (ℚ × ℚ)) (now_ts price : ℚ) :
    List (ℚ × ℚ) :=
  (hist ++ [(now_ts, price)]).dropWhile (fun e => decide (e.1 < now_ts - seconds_24h))

/-- The stats query `_compute_24h_stats`: start price is the front of the
window (absent if empty); the change is computed only when the start price
is truthy and positive. -/
def compute_24h_stats (hist : List (ℚ × ℚ)) (current_price : ℚ) :
    Option ℚ × Option ℚ :=
  match hist with
  | [] => (none, none)
  | e :: _ =>
      if e.2 ≠ 0 ∧ 0 < e.2 then
        (some e.2, some ((current_price - e.2) / e.2))
      else (some e.2, none)

/-- The flat-branch session-high update:
`if self.session_high is None or price > self.session_high`. -/
def sessionHighUpdate (sh : Option ℚ) (price : ℚ) : ℚ :=
  match sh with
  | none => price
  | some s => if s < price then price else s

/-- The reference baseline `last_sell_price if last_sell_price is not None else session_high`. -/
def buyBaseline (last_sell sh : Option ℚ) : Option ℚ :=
  match last_sell with
  | some l => some l
  | none => sh

/-- Tagging the snapshot via `_update_status` with a new last action. -/
def setLastAction (st : BotState) (a : LastAction) : BotState :=
  { st with status := { st.status with last_action := some a } }

/-- Quote balance `float(balances.get("USD", 0.0))`, a failed fetch acting as an empty dict. -/
def usdAvail (inp : TickInput) : ℚ := (inp.balances.getD (0, 0)).1

/-- Base balance `float(balances.get("XMR", 0.0))`, a failed fetch acting as an empty dict. -/
def xmrAvail (inp : TickInput) : ℚ := (inp.balances.getD (0, 0)).2

/-- The pre-decision part of `tick`: push the price into the 24h window,
compute the 24h stats and the display-only reference thresholds, rebuild
the status snapshot with pre-decision values, and update the hourly-log
marker.  The strategy fields are untouched. -/
def preDecision (cfg : Config) (st : BotState) (inp : TickInput) (price : ℚ) :
    BotState :=
  let hist := update_price_history st.price_history inp.now price
  let stats := compute_24h_stats hist price
  let drop_ref :=
    (buyBaseline st.strat.last_sell_price st.strat.session_high).map
      (fun b => b * (1 - cfg.drop_pct))
  let rise_ref := st.strat.entry_price.map (fun e => e * (1 + cfg.rise_pct))
  let mode := if 0 < st.strat.position_qty then Mode.sellMode else Mode.buyMode
  let display :=
    if st.loaded_from_state = true ∧ 0 < st.strat.position_qty then
      some LastAction.loaded
    else none
  { st with
    price_history := hist
    last_status_log_hour :=
      if st.last_status_log_hour ≠ some inp.hour then some inp.hour
      else st.last_status_log_hour
    status := { st.status with
      timestamp := some inp.now
      price := some price
      session_high := st.strat.session_high
      entry_price := st.strat.entry_price
      position_qty := st.strat.position_qty
      usd_available := some (usdAvail inp)
      xmr_available := some (xmrAvail inp)
      drop_threshold_price := drop_ref
      rise_threshold_price := rise_ref
      price_24h_start := stats.1
      price_24h_change_pct := stats.2
      mode := some mode
      last_sell_price := st.strat.last_sell_price
      last_action := display } }

/-- The flat branch (`position_qty <= 0`): update the session high, test
the drop condition (Python truthiness: a zero baseline is falsy), then
either skip on insufficient USD, simulate, attempt the buy, or do
nothing. -/
def flatBranch (cfg : Config) (st1 : BotState) (price usd_available : ℚ)
    (buy_ok : Bool) : TickResult :=
  let sh := sessionHighUpdate st1.strat.session_high price
  let st2 : BotState := { st1 with strat := { st1.strat with session_high := some sh } }
  let b := st1.strat.last_sell_price.getD sh
  if b ≠ 0 ∧ price ≤ b * (1 - cfg.drop_pct) then
    let usd_cap := min cfg.max_position_usd usd_available
    if usd_cap < cfg.min_trade_usd then
      ⟨setLastAction st2 LastAction.buy_skipped_insufficient_usd,
        false, false, true, false⟩
    else if cfg.trading_enabled then
      if buy_ok then
        let qty := usd_cap / price
        ⟨{ st2 with
            strat := { st2.strat with entry_price := some price, position_qty := qty }
            loaded_from_state := false
            status := { st2.status with
              entry_price := some price
              position_qty := qty
              last_action := some LastAction.buy } },
          true, true, true, false⟩
      else ⟨st2, false, true, true, false⟩
    else ⟨setLastAction st2 LastAction.buy_simulated, false, false, true, false⟩
  else ⟨st2, false, false, false, false⟩

/-- The holding branch (`position_qty > 0`, entry price already extracted):
test the rise condition, then either skip with no sellable quantity,
simulate, attempt the sell (zeroing the position and resetting the
baselines only when the remainder is within `epsilon`), or do nothing. -/
def sellBranch (cfg : Config) (st1 : BotState) (entry price xmr_available : ℚ)
    (sell_ok : Bool) : TickResult :=
  if entry * (1 + cfg.rise_pct) ≤ price then
    let qty_to_sell := min st1.strat.position_qty xmr_available
    if qty_to_sell ≤ 0 then
      ⟨setLastAction st1 LastAction.sell_skipped_no_xmr, false, false, false, true⟩
    else if cfg.trading_enabled then
      if sell_ok then
        let qty1 := st1.strat.position_qty - qty_to_sell
        let strat2 : StrategyState :=
          if qty1 ≤ epsilon then
            { st1.strat with
              position_qty := 0
              entry_price := none
              last_sell_price := some price
              session_high := some price }
          else { st1.strat with position_qty := qty1 }
        ⟨{ st1 with
            strat := strat2
            loaded_from_state := false
            status := { st1.status with
              position_qty := strat2.position_qty
              entry_price := strat2.entry_price
              session_high := strat2.session_high
              last_sell_price := strat2.last_sell_price
              last_action := some LastAction.sell } },
          true, true, false, true⟩
      else ⟨st1, false, true, false, true⟩
    else ⟨setLastAction st1 LastAction.sell_simulated, false, false, false, true⟩
  else ⟨st1, false, false, false, false⟩

/-- One tick of the engine.  A failed price fetch abandons the tick with
nothing mutated.  `none` models the holding-branch assertion failing
(`assert self.entry_price is not None`). -/
def tick (cfg : Config) (st : BotState) (inp : TickInput) : Option TickResult :=
  match inp.price with
  | none => some ⟨st, false, false, false, false⟩
  | some price =>
    let st1 := preDecision cfg st inp price
    if st.strat.position_qty ≤ 0 then
      some (flatBranch cfg st1 price (usdAvail inp) inp.buy_order_ok)
    else
      match st.strat.entry_price with
      | none => none
      | some entry =>
          some (sellBranch cfg st1 entry price (xmrAvail inp) inp.sell_order_ok)

/-- The strategy fields produced by a tick. -/
def tickStrat (cfg : Config) (st : BotState) (inp : TickInput) :
    Option StrategyState :=
  (tick cfg st inp).map (fun r => r.state.strat)

/-- Whether the flat-branch drop condition fired on a tick. -/
def tickBuySignal (cfg : Config) (st : BotState) (inp : TickInput) :
    Option Bool :=
  (tick cfg st inp).map (fun r => r.buy_signal)

/-- A tick's persistence / gateway / last-action effects. -/
def tickEffects (cfg : Config) (st : BotState) (inp : TickInput) :
    Option (Bool × Bool × Option LastAction) :=
  (tick cfg st inp).map (fun r => (r.saved, r.order_placed, r.state.status.last_action))

/-- On a completed tick, is the snapshot's 24h start price present? -/
def tickStartPresent (cfg : Config) (st : BotState) (inp : TickInput) : Bool :=
  match tick cfg st inp with
  | none => true
  | some r => r.state.status.price_24h_start.isSome

/-- The data-model invariant: a position is held iff an entry price is
recorded. -/
def invariantHolds (s : StrategyState) : Prop :=
  0 < s.position_qty ↔ s.entry_price.isSome

instance (s : StrategyState) : Decidable (invariantHolds s) := by
  unfold invariantHolds; infer_instance

/-- Replay a whole sequence of window inserts starting from the empty
deque. -/
def insertAll (samples : List (ℚ × ℚ)) : List (ℚ × ℚ) :=
  samples.foldl (fun h s => update_price_history h s.1 s.2) []

/-- Timestamp order on window samples. -/
def tsLE (a b : ℚ × ℚ) : Prop := a.1 ≤ b.1

instance : DecidableRel tsLE := fun a b => inferInstanceAs (Decidable (a.1 ≤ b.1))

/-- The snapshot as `__init__` builds it. -/
def initStatus : Status :=
  ⟨none, none, none, none, 0, none, none, none, none, none, none, none,
    none, none, true⟩

/-- The default strategy parameters from the environment fallbacks. -/
def cfg0 : Config := ⟨5 / 100, 5 / 100, 10, 100, true⟩

/-- The default parameters with trading disabled (dry-run). -/
def cfg_disabled : Config := ⟨5 / 100, 5 / 100, 10, 100, false⟩

/-- Concrete flat state for the negative-price counterexample: flat with a
recorded last sell of 100. -/
def c1cst : BotState := ⟨⟨0, none, some 100, none⟩, false, none, [], initStatus⟩

/-- Tick input with a negative fetched price and ample quote balance. -/
def c1cinp : TickInput := ⟨some (-1), 1000, 0, some (50, 0), true, true⟩

/-- Concrete holding state satisfying the invariant. -/
def c1wst : BotState := ⟨⟨2, some 3, none, none⟩, false, none, [], initStatus⟩

/-- Tick input whose price fetch failed. -/
def c1winp : TickInput := ⟨none, 0, 0, none, false, false⟩

/-- Concrete holding state with a tracked position of 10 units. -/
def c2cst : BotState := ⟨⟨10, some 100, none, some 120⟩, false, none, [], initStatus⟩

/-- Tick input triggering a sell with only 1 unit in the wallet. -/
def c2cinp : TickInput := ⟨some 105, 0, 0, some (0, 1), true, true⟩

/-- Concrete holding state with a position of one half unit. -/
def c2wst : BotState := ⟨⟨1 / 2, some 100, none, some 120⟩, false, none, [], initStatus⟩

/-- Tick input triggering a full sell of the tracked position. -/
def c2winp : TickInput := ⟨some 105, 0, 0, some (0, 2), true, true⟩

/-- Concrete flat state whose recorded last sell price is zero. -/
def c3cst : BotState := ⟨⟨0, none, some 0, none⟩, false, none, [], initStatus⟩

/-- Tick input with a negative fetched price. -/
def c3cinp : TickInput := ⟨some (-5), 0, 0, some (1000, 0), true, true⟩

/-- Concrete flat state with a session high of 100 and no prior sell. -/
def c3wst : BotState := ⟨⟨0, none, none, some 100⟩, false, none, [], initStatus⟩

/-- Tick input at exactly the 5 percent drop threshold. -/
def c3winp : TickInput := ⟨some 95, 0, 0, some (50, 0), true, true⟩

/-- Concrete bot state with every component populated. -/
def c5wst : BotState := ⟨⟨1, some 9, some 8, some 7⟩, true, some 3, [(5, 6)], initStatus⟩

/-- Tick input whose price fetch failed but whose other readings changed. -/
def c5winp : TickInput := ⟨none, 42, 4, some (13, 14), true, true⟩

/-- Sample sequence already inserted into the window. -/
def c6wpre : List (ℚ × ℚ) := [(0, 10), (50000, 11)]

/-- Fresh sample whose insert evicts the oldest retained entry. -/
def c6ws : ℚ × ℚ := (90000, 12)

/-- Concrete flat state with a recorded last sell of 100. -/
def c7wst : BotState := ⟨⟨0, none, some 100, none⟩, false, none, [], initStatus⟩

/-- Tick input firing the buy signal with sufficient quote balance. -/
def c7winp : TickInput := ⟨some 95, 0, 0, some (50, 0), true, true⟩

/-- Concrete holding state with a recorded last sell of 90. -/
def c8wst : BotState := ⟨⟨1, some 100, some 90, some 120⟩, false, none, [], initStatus⟩

/-- Tick input triggering a full sell at 105. -/
def c8winp : TickInput := ⟨some 105, 0, 0, some (0, 2), true, true⟩

/-- Concrete holding state with its entry price present. -/
def c9wst : BotState := ⟨⟨1, some 100, none, none⟩, false, none, [], initStatus⟩

/-- Tick input whose price stays below the rise threshold. -/
def c9winp : TickInput := ⟨some 90, 0, 0, some (0, 0), true, true⟩

/-- Concrete fresh flat state with an empty window. -/
def c10wst : BotState := ⟨⟨0, none, none, none⟩, false, none, [], initStatus⟩

/-- Tick input with a successful price fetch and a failed balance fetch. -/
def c10winp : TickInput := ⟨some 7, 0, 0, none, false, false⟩

/-- A window insert always leaves the just-inserted sample at the back. -/
theorem update_price_history_getLast (hist : List (ℚ × ℚ)) (now_ts price : ℚ) :
    (update_price_history hist now_ts price).getLast? = some (now_ts, price) := by
  unfold update_price_history
  rw [List.dropWhile_append]
  split
  · have h : ¬ ((now_ts, price).1 < now_ts - seconds_24h) := by
      simp only [seconds_24h]; push_neg; linarith
    simp [h]
  · exact List.getLast?_concat _

/-- A window insert never empties the window. -/
theorem update_price_history_ne_nil (hist : List (ℚ × ℚ)) (now_ts price : ℚ) :
    update_price_history hist now_ts price ≠ [] := by
  intro h
  have h2 := update_price_history_getLast hist now_ts price
  rw [h] at h2
  simp at h2

/-- Everything the eviction pass retains from a timestamp-sorted list is at
or after the cutoff. -/
theorem mem_dropWhile_ts (c : ℚ) :
    ∀ l : List (ℚ × ℚ), l.Pairwise tsLE →
      ∀ e ∈ l.dropWhile (fun x => decide (x.1 < c)), c ≤ e.1 := by
  intro l
  induction l with
  | nil => simp
  | cons a t ih =>
      intro hp e he
      rcases List.pairwise_cons.mp hp with ⟨ha, ht⟩
      by_cases hc : a.1 < c
      · simp only [List.dropWhile_cons, hc, decide_eq_true_eq, if_true] at he
        exact ih ht e he
      · simp only [List.dropWhile_cons, decide_eq_true_eq, hc, if_false] at he
        rcases List.mem_cons.mp he with h | h
        · subst h; exact not_lt.mp hc
        · exact le_trans (not_lt.mp hc) (ha e h)

/-- Replaying one more insert is a single window update. -/
theorem insertAll_concat (l : List (ℚ × ℚ)) (s : ℚ × ℚ) :
    insertAll (l ++ [s]) = update_price_history (insertAll l) s.1 s.2 := by
  simp [insertAll, List.foldl_append]

/-- Every retained window sample was actually inserted. -/
theorem insertAll_subset (l : List (ℚ × ℚ)) : ∀ x ∈ insertAll l, x ∈ l := by
  induction l using List.reverseRecOn with
  | nil => simp [insertAll]
  | append_singleton l s ih =>
      intro x hx
      rw [insertAll_concat] at hx
      have hx2 := (List.dropWhile_sublist _).subset hx
      rcases List.mem_append.mp hx2 with h | h
      · exact List.mem_append_left _ (ih x h)
      · exact List.mem_append_right _ (by simpa using h)

/-- Replaying timestamp-sorted inserts keeps the window timestamp-sorted. -/
theorem insertAll_sorted (l : List (ℚ × ℚ)) (hl : l.Pairwise tsLE) :
    (insertAll l).Pairwise tsLE := by
  induction l using List.reverseRecOn with
  | nil => simp [insertAll]
  | append_singleton l s ih =>
      rcases List.pairwise_append.mp hl with ⟨hl1, _, hbound⟩
      rw [insertAll_concat]
      refine List.Pairwise.sublist (List.dropWhile_sublist _) ?_
      refine List.pairwise_append.mpr ⟨ih hl1, by simp, ?_⟩
      intro a ha b hb
      rcases List.mem_singleton.mp hb with rfl
      exact hbound a (insertAll_subset l a ha) s (List.mem_singleton.mpr rfl)

/-- The pre-decision bookkeeping leaves the strategy fields untouched. -/
theorem preDecision_strat (cfg : Config) (st : BotState) (inp : TickInput) (price : ℚ) :
    (preDecision cfg st inp price).strat = st.strat := rfl

/-- The pre-decision snapshot records the window's 24h start price. -/
theorem preDecision_start (cfg : Config) (st : BotState) (inp : TickInput) (price : ℚ) :
    (preDecision cfg st inp price).status.price_24h_start =
      (compute_24h_stats (update_price_history st.price_history inp.now price) price).1 := rfl

/-- The flat branch never touches the snapshot's 24h start price. -/
theorem flatBranch_start (cfg : Config) (st1 : BotState) (price usd : ℚ) (bk : Bool) :
    (flatBranch cfg st1 price usd bk).state.status.price_24h_start =
      st1.status.price_24h_start := by
  simp only [flatBranch, setLastAction]
  split_ifs <;> rfl

/-- The holding branch never touches the snapshot's 24h start price. -/
theorem sellBranch_start (cfg : Config) (st1 : BotState) (entry price xmr : ℚ) (sk : Bool) :
    (sellBranch cfg st1 entry price xmr sk).state.status.price_24h_start =
      st1.status.price_24h_start := by
  simp only [sellBranch, setLastAction]
  split_ifs <;> rfl

/-- The flat branch never touches the last sell price. -/
theorem flatBranch_last_sell (cfg : Config) (st1 : BotState) (price usd : ℚ) (bk : Bool) :
    (flatBranch cfg st1 price usd bk).state.strat.last_sell_price =
      st1.strat.last_sell_price := by
  simp only [flatBranch, setLastAction]
  split_ifs <;> rfl

/-- The holding branch either keeps the last sell price or overwrites it
with the tick's price. -/
theorem sellBranch_last_sell (cfg : Config) (st1 : BotState) (entry price xmr : ℚ) (sk : Bool) :
    (sellBranch cfg st1 entry price xmr sk).state.strat.last_sell_price =
        st1.strat.last_sell_price ∨
      (sellBranch cfg st1 entry price xmr sk).state.strat.last_sell_price = some price := by
  simp only [sellBranch, setLastAction]
  split_ifs <;> simp

/-- A tick whose price fetch failed returns the state unchanged with no
effects. -/
theorem tick_price_none (cfg : Config) (st : BotState) (inp : TickInput)
    (h : inp.price = none) :
    tick cfg st inp = some ⟨st, false, false, false, false⟩ := by
  simp [tick, h]

/-- The 24h stats of a nonempty window always carry a start price. -/
theorem compute_24h_stats_isSome (hist : List (ℚ × ℚ)) (c : ℚ) (h : hist ≠ []) :
    (compute_24h_stats hist c).1.isSome = true := by
  cases hist with
  | nil => exact absurd rfl h
  | cons a t =>
      simp only [compute_24h_stats]
      split_ifs <;> simp

/-- The position-zeroing epsilon is positive. -/
theorem epsilon_pos : 0 < epsilon := by norm_num [epsilon]

/-- The flat branch preserves the position/entry invariant whenever the
price and the minimum trade notional are positive. -/
theorem flatBranch_invariant (cfg : Config) (st1 : BotState) (price usd : ℚ) (bk : Bool)
    (hinv : invariantHolds st1.strat)
    (hp : 0 < price) (hmin : 0 < cfg.min_trade_usd) :
    invariantHolds (flatBranch cfg st1 price usd bk).state.strat := by
  simp only [flatBranch, setLastAction]
  split_ifs with h1 h2 h3 h4
  · simpa [invariantHolds] using hinv
  · simp only [invariantHolds, Option.isSome_some, iff_true]
    have hcap : cfg.min_trade_usd ≤ min cfg.max_position_usd usd := not_lt.mp h2
    exact div_pos (lt_of_lt_of_le hmin hcap) hp
  · simpa [invariantHolds] using hinv
  · simpa [invariantHolds] using hinv
  · simpa [invariantHolds] using hinv

/-- The holding branch preserves the position/entry invariant. -/
theorem sellBranch_invariant (cfg : Config) (st1 : BotState) (entry price xmr : ℚ) (sk : Bool)
    (hq : 0 < st1.strat.position_qty) (he : st1.strat.entry_price = some entry) :
    invariantHolds (sellBranch cfg st1 entry price xmr sk).state.strat := by
  have hbase : invariantHolds st1.strat := by
    simp [invariantHolds, hq, he]
  simp only [sellBranch, setLastAction]
  split_ifs with h1 h2 h3 h4 h5
  · simpa [invariantHolds] using hbase
  · simp [invariantHolds]
  · have h6 : 0 < st1.strat.position_qty - min st1.strat.position_qty xmr :=
      lt_trans epsilon_pos (not_le.mp h5)
    simp [invariantHolds, h6, he]
  · simpa [invariantHolds] using hbase
  · simpa [invariantHolds] using hbase
  · simpa [invariantHolds] using hbase

/-- A full (within epsilon) completed sell zeroes the position, clears the
entry, and resets both baselines to the sell price. -/
theorem sellBranch_complete (cfg : Config) (st1 : BotState) (entry price xmr : ℚ) (sk : Bool)
    (hrise : entry * (1 + cfg.rise_pct) ≤ price)
    (hqs : 0 < min st1.strat.position_qty xmr)
    (hen : cfg.trading_enabled = true) (hok : sk = true)
    (hfull : st1.strat.position_qty - min st1.strat.position_qty xmr ≤ epsilon) :
    (sellBranch cfg st1 entry price xmr sk).state.strat = ⟨0, none, some price, some price⟩ := by
  simp only [sellBranch, setLastAction, hen, hok]
  rw [if_pos hrise, if_neg (not_le.mpr hqs)]
  simp only [if_true, if_pos hfull]

/-- The flat branch's recorded buy signal is exactly the code's truthiness
drop condition over the updated baseline. -/
theorem flatBranch_buy_signal (cfg : Config) (st1 : BotState) (price usd : ℚ) (bk : Bool) :
    (flatBranch cfg st1 price usd bk).buy_signal =
      decide (st1.strat.last_sell_price.getD (sessionHighUpdate st1.strat.session_high price) ≠ 0 ∧
        price ≤ st1.strat.last_sell_price.getD (sessionHighUpdate st1.strat.session_high price) *
          (1 - cfg.drop_pct)) := by
  simp only [flatBranch, setLastAction]
  split_ifs with h1 h2 h3 h4 <;> simp_all

/-- The holding branch never fires a buy signal. -/
theorem sellBranch_buy_signal (cfg : Config) (st1 : BotState) (entry price xmr : ℚ) (sk : Bool) :
    (sellBranch cfg st1 entry price xmr sk).buy_signal = false := by
  simp only [sellBranch, setLastAction]
  split_ifs <;> rfl

/-- With trading disabled, a firing buy signal with sufficient funds only
tags the snapshot as a simulated buy. -/
theorem flatBranch_simulated (cfg : Config) (st1 : BotState) (price usd : ℚ) (bk : Bool)
    (hdis : cfg.trading_enabled = false)
    (hb : st1.strat.last_sell_price.getD (sessionHighUpdate st1.strat.session_high price) ≠ 0)
    (hcond : price ≤ st1.strat.last_sell_price.getD
      (sessionHighUpdate st1.strat.session_high price) * (1 - cfg.drop_pct))
    (hcap : cfg.min_trade_usd ≤ min cfg.max_position_usd usd) :
    flatBranch cfg st1 price usd bk =
      ⟨setLastAction { st1 with strat := { st1.strat with
          session_high := some (sessionHighUpdate st1.strat.session_high price) } }
        LastAction.buy_simulated, false, false, true, false⟩ := by
  simp only [flatBranch, hdis]
  rw [if_pos ⟨hb, hcond⟩, if_neg (not_lt.mpr hcap)]
  simp

/-- C1 (counterexample): the invariant `positionQty > 0 iff entryPrice
present` is not preserved for an arbitrary price input — a buy executed at
the fetched price -1 leaves a negative position with an entry price
recorded, so the claim fails as stated for some price input. -/
theorem c1_negative_price_counterexample :
    invariantHolds c1cst.strat ∧
    tickStrat cfg0 c1cst c1cinp = some ⟨-50, some (-1), some 100, some (-1)⟩ ∧
    ¬ invariantHolds ⟨-50, some (-1), some 100, some (-1)⟩ := by
  refine ⟨by norm_num [invariantHolds, c1cst], ?_, by norm_num [invariantHolds]⟩
  norm_num [tickStrat, tick, preDecision, flatBranch, sellBranch, sessionHighUpdate,
    buyBaseline, setLastAction, update_price_history, compute_24h_stats, usdAvail, xmrAvail,
    epsilon, seconds_24h, cfg0, c1cst, c1cinp, initStatus]

/-- C1 (amended): if `positionQty > 0 iff entryPrice present` holds before
a tick, every fetched price is positive, and the configured minimum trade
notional is positive, then the invariant also holds after the tick for any
balances and gateway outcome. -/
theorem c1_invariant_preserved (cfg : Config) (st : BotState) (inp : TickInput)
    (hinv : invariantHolds st.strat)
    (hp : ∀ p ∈ inp.price, 0 < p)
    (hmin : 0 < cfg.min_trade_usd)
    (s : StrategyState) (hs : tickStrat cfg st inp = some s) :
    invariantHolds s := by
  rcases hpx : inp.price with _ | p
  · rw [tickStrat, tick_price_none cfg st inp hpx] at hs
    simp at hs
    rw [← hs]; exact hinv
  · have hp2 : 0 < p := hp p (by rw [hpx]; rfl)
    rw [tickStrat] at hs
    simp only [tick, hpx] at hs
    by_cases hq : st.strat.position_qty ≤ 0
    · rw [if_pos hq] at hs
      have hs2 : (flatBranch cfg (preDecision cfg st inp p) p
          (usdAvail inp) inp.buy_order_ok).state.strat = s := by
        simpa using hs
      rw [← hs2]
      exact flatBranch_invariant cfg _ p _ _ hinv hp2 hmin
    · rw [if_neg hq] at hs
      rcases hent : st.strat.entry_price with _ | e
      · rw [hent] at hs; simp at hs
      · rw [hent] at hs
        have hs2 : (sellBranch cfg (preDecision cfg st inp p) e p
            (xmrAvail inp) inp.sell_order_ok).state.strat = s := by
          simpa using hs
        rw [← hs2]
        exact sellBranch_invariant cfg _ e p _ _ (not_le.mp hq) hent

/-- C1 (witness): the amended preservation theorem applied to a concrete
holding state across a failed-price tick. -/
theorem c1_invariant_preserved_witness : invariantHolds ⟨2, some 3, none, none⟩ :=
  c1_invariant_preserved cfg0 c1wst c1winp (by norm_num [invariantHolds, c1wst])
    (by simp [c1winp]) (by norm_num [cfg0]) ⟨2, some 3, none, none⟩ rfl

/-- C2 (counterexample): a successful sell whose sellable quantity is
capped by the wallet balance satisfies every condition of the claim
(holding, signal fired, positive quantity, trading enabled, gateway
success) yet leaves `lastSellPrice` absent, the entry price recorded, and
a positive position — the post-sell reset only happens when the remaining
position is within the 1e-8 epsilon. -/
theorem c2_partial_sell_counterexample :
    0 < c2cst.strat.position_qty ∧
    c2cst.strat.entry_price = some 100 ∧
    (100 : ℚ) * (1 + cfg0.rise_pct) ≤ 105 ∧
    0 < min c2cst.strat.position_qty (xmrAvail c2cinp) ∧
    cfg0.trading_enabled = true ∧
    c2cinp.sell_order_ok = true ∧
    tickStrat cfg0 c2cst c2cinp = some ⟨9, some 100, none, some 120⟩ ∧
    (⟨9, some 100, none, some 120⟩ : StrategyState).last_sell_price ≠ some 105 := by
  refine ⟨by norm_num [c2cst], rfl, by norm_num [cfg0], by norm_num [c2cst, c2cinp, xmrAvail],
    rfl, rfl, ?_, by simp⟩
  norm_num [tickStrat, tick, preDecision, flatBranch, sellBranch, sessionHighUpdate,
    buyBaseline, setLastAction, update_price_history, compute_24h_stats, usdAvail, xmrAvail,
    epsilon, seconds_24h, cfg0, c2cst, c2cinp, initStatus]

/-- C2 (amended): for every tick in which a sell order is placed and
succeeds (holding, sell signal fired, positive sellable quantity, trading
enabled) and additionally the remaining position after selling
`min(positionQty, baseAvailable)` is within the 1e-8 epsilon, the tick
ends with `lastSellPrice` and `sessionHigh` equal to the sell price, a
zero position, and no entry price. -/
theorem c2_sell_completion (cfg : Config) (st : BotState) (inp : TickInput) (p e : ℚ)
    (hp : inp.price = some p)
    (hq : 0 < st.strat.position_qty)
    (he : st.strat.entry_price = some e)
    (hrise : e * (1 + cfg.rise_pct) ≤ p)
    (hqs : 0 < min st.strat.position_qty (xmrAvail inp))
    (hen : cfg.trading_enabled = true)
    (hok : inp.sell_order_ok = true)
    (hfull : st.strat.position_qty - min st.strat.position_qty (xmrAvail inp) ≤ epsilon)
    (s : StrategyState) (hs : tickStrat cfg st inp = some s) :
    s = ⟨0, none, some p, some p⟩ := by
  rw [tickStrat] at hs
  simp only [tick, hp] at hs
  rw [if_neg (not_le.mpr hq), he] at hs
  have hs2 : (sellBranch cfg (preDecision cfg st inp p) e p
      (xmrAvail inp) inp.sell_order_ok).state.strat = s := by
    simpa using hs
  rw [← hs2]
  exact sellBranch_complete cfg _ e p _ _ hrise hqs hen hok hfull

/-- C2 (witness): the amended completion theorem applied to a concrete
full sell of half a unit at 105. -/
theorem c2_sell_completion_witness :
    0 < min c2wst.strat.position_qty (xmrAvail c2winp) ∧
    (⟨0, none, some 105, some 105⟩ : StrategyState) = ⟨0, none, some 105, some 105⟩ :=
  ⟨by norm_num [c2wst, c2winp, xmrAvail],
    c2_sell_completion cfg0 c2wst c2winp 105 100 rfl (by norm_num [c2wst]) rfl
      (by norm_num [cfg0])
      (by norm_num [c2wst, c2winp, xmrAvail]) rfl rfl
      (by norm_num [c2wst, c2winp, xmrAvail, epsilon])
      ⟨0, none, some 105, some 105⟩
      (by norm_num [tickStrat, tick, preDecision, flatBranch, sellBranch, sessionHighUpdate,
        buyBaseline, setLastAction, update_price_history, compute_24h_stats, usdAvail, xmrAvail,
        epsilon, seconds_24h, cfg0, c2wst, c2winp, initStatus])⟩

/-- C3 (counterexample): with a zero recorded last sell price the state is
flat, the baseline is present, and the price is at or below the drop
threshold, yet no buy signal fires — the code's Python truthiness test
treats a zero baseline as falsy, so the claimed equivalence fails. -/
theorem c3_zero_baseline_counterexample :
    c3cst.strat.position_qty = 0 ∧
    buyBaseline c3cst.strat.last_sell_price
      (some (sessionHighUpdate c3cst.strat.session_high (-5))) = some 0 ∧
    ((-5 : ℚ) ≤ 0 * (1 - cfg0.drop_pct)) ∧
    tickBuySignal cfg0 c3cst c3cinp = some false := by
  refine ⟨rfl, rfl, by norm_num, ?_⟩
  norm_num [tickBuySignal, tick, preDecision, flatBranch, sellBranch, sessionHighUpdate,
    buyBaseline, setLastAction, update_price_history, compute_24h_stats, usdAvail, xmrAvail,
    epsilon, seconds_24h, cfg0, c3cst, c3cinp, initStatus]

/-- C3 (amended): on a tick with a fetched price, from a state with
non-negative position, the buy signal fires iff the position is zero, the
baseline (last sell price if present, else the just-updated session high)
is nonzero, and the price is at or below baseline times (1 - dropPct);
this covers both the session-high and the last-sell baseline. -/
theorem c3_buy_signal_iff (cfg : Config) (st : BotState) (inp : TickInput) (p : ℚ)
    (h0 : 0 ≤ st.strat.position_qty)
    (hp : inp.price = some p) :
    tickBuySignal cfg st inp = some true ↔
      (st.strat.position_qty = 0 ∧
        st.strat.last_sell_price.getD (sessionHighUpdate st.strat.session_high p) ≠ 0 ∧
        p ≤ st.strat.last_sell_price.getD (sessionHighUpdate st.strat.session_high p) *
          (1 - cfg.drop_pct)) := by
  rw [tickBuySignal]
  simp only [tick, hp]
  by_cases hq : st.strat.position_qty ≤ 0
  · have hq0 : st.strat.position_qty = 0 := le_antisymm hq h0
    rw [if_pos hq]
    constructor
    · intro h
      have h2 : (flatBranch cfg (preDecision cfg st inp p) p
          (usdAvail inp) inp.buy_order_ok).buy_signal = true := by
        simpa using h
      rw [flatBranch_buy_signal] at h2
      exact ⟨hq0, by simpa using of_decide_eq_true h2⟩
    · intro h
      rcases h with ⟨h1, h2, h3⟩
      have h4 : (flatBranch cfg (preDecision cfg st inp p) p
          (usdAvail inp) inp.buy_order_ok).buy_signal = true := by
        rw [flatBranch_buy_signal]
        exact decide_eq_true ⟨h2, h3⟩
      simpa using h4
  · rw [if_neg hq]
    constructor
    · intro h
      rcases hent : st.strat.entry_price with _ | e <;> rw [hent] at h
      · simp at h
      · have h2 : (sellBranch cfg (preDecision cfg st inp p) e p
            (xmrAvail inp) inp.sell_order_ok).buy_signal = true := by
          simpa using h
        rw [sellBranch_buy_signal] at h2
        exact absurd h2 (by simp)
    · intro h
      rcases h with ⟨h1, _⟩
      exact absurd (h1 ▸ le_refl (0 : ℚ)) hq

/-- C3 (witness): the amended equivalence applied at a concrete flat state
with session-high baseline 100 and price exactly at the drop threshold. -/
theorem c3_buy_signal_iff_witness :
    tickBuySignal cfg0 c3wst c3winp = some true ↔
      (c3wst.strat.position_qty = 0 ∧
        c3wst.strat.last_sell_price.getD (sessionHighUpdate c3wst.strat.session_high 95) ≠ 0 ∧
        (95 : ℚ) ≤ c3wst.strat.last_sell_price.getD
          (sessionHighUpdate c3wst.strat.session_high 95) * (1 - cfg0.drop_pct)) :=
  c3_buy_signal_iff cfg0 c3wst c3winp 95 (by norm_num [c3wst]) rfl

/-- C4: saving a strategy state and loading it back yields an equal state;
every numeric field keeps its exact value and every absent optional stays
absent. -/
theorem c4_save_load_round_trip (s : StrategyState) : load_state (save_state s) = s := rfl

/-- C5: when the price fetch fails the tick is abandoned with no gateway
order, no persistence, and the whole bot state — strategy fields, rolling
window, hour marker, and status snapshot — exactly as before. -/
theorem c5_price_fail_no_mutation (cfg : Config) (st : BotState) (inp : TickInput)
    (h : inp.price = none) :
    tick cfg st inp = some ⟨st, false, false, false, false⟩ :=
  tick_price_none cfg st inp h

/-- C5 (witness): the no-mutation theorem applied to a concrete populated
state and a failed-price input. -/
theorem c5_price_fail_no_mutation_witness :
    tick cfg0 c5wst c5winp = some ⟨c5wst, false, false, false, false⟩ :=
  c5_price_fail_no_mutation cfg0 c5wst c5winp rfl

/-- C6: replaying any monotone-timestamp insert sequence, immediately
after each insert no retained sample is more than 24 hours older than the
window's most recent sample. -/
theorem c6_window_24h_bound (pre : List (ℚ × ℚ)) (s : ℚ × ℚ)
    (hmono : (pre ++ [s]).Pairwise tsLE)
    (last : ℚ × ℚ) (hlast : (insertAll (pre ++ [s])).getLast? = some last)
    (e : ℚ × ℚ) (he : e ∈ insertAll (pre ++ [s])) :
    last.1 - seconds_24h ≤ e.1 := by
  rcases List.pairwise_append.mp hmono with ⟨hpre, _, hbound⟩
  rw [insertAll_concat] at hlast he
  rw [update_price_history_getLast] at hlast
  have hl : last = (s.1, s.2) := by injection hlast with h; exact h.symm
  subst hl
  unfold update_price_history at he
  have hsorted : (insertAll pre ++ [(s.1, s.2)]).Pairwise tsLE := by
    refine List.pairwise_append.mpr ⟨insertAll_sorted pre hpre, by simp, ?_⟩
    intro a ha b hb
    rcases List.mem_singleton.mp hb with rfl
    exact hbound a (insertAll_subset pre a ha) s (List.mem_singleton.mpr rfl)
  exact mem_dropWhile_ts (s.1 - seconds_24h) _ hsorted e he

/-- C6 (witness): the bound applied to a concrete three-insert sequence in
which the first sample is evicted. -/
theorem c6_window_24h_bound_witness :
    ((90000 : ℚ), (12 : ℚ)).1 - seconds_24h ≤ ((50000 : ℚ), (11 : ℚ)).1 :=
  c6_window_24h_bound c6wpre c6ws
    (by norm_num [c6wpre, c6ws, tsLE])
    (90000, 12)
    (by norm_num [c6wpre, c6ws, insertAll, update_price_history, seconds_24h, List.dropWhile])
    (50000, 11)
    (by norm_num [c6wpre, c6ws, insertAll, update_price_history, seconds_24h, List.dropWhile])

/-- C7: with trading disabled, a firing buy signal with
`usdCap >= minTradeQuote` places no gateway order, persists nothing,
leaves the strategy fields unchanged apart from the flat-mode session-high
update, and tags the snapshot's last action as a simulated buy. -/
theorem c7_simulated_buy_frame (cfg : Config) (st : BotState) (inp : TickInput) (p : ℚ)
    (hp : inp.price = some p) (hflat : st.strat.position_qty ≤ 0)
    (hdis : cfg.trading_enabled = false)
    (hb : st.strat.last_sell_price.getD (sessionHighUpdate st.strat.session_high p) ≠ 0)
    (hcond : p ≤ st.strat.last_sell_price.getD
      (sessionHighUpdate st.strat.session_high p) * (1 - cfg.drop_pct))
    (hcap : cfg.min_trade_usd ≤ min cfg.max_position_usd (usdAvail inp)) :
    tickEffects cfg st inp = some (false, false, some LastAction.buy_simulated) ∧
    tickStrat cfg st inp =
      some { st.strat with session_high := some (sessionHighUpdate st.strat.session_high p) } := by
  have hfb := flatBranch_simulated cfg (preDecision cfg st inp p) p (usdAvail inp)
    inp.buy_order_ok hdis hb hcond hcap
  constructor
  · rw [tickEffects]
    simp only [tick, hp]
    rw [if_pos hflat, hfb]
    rfl
  · rw [tickStrat]
    simp only [tick, hp]
    rw [if_pos hflat, hfb]
    rfl

/-- C7 (witness): the simulated-buy frame theorem applied to a concrete
dry-run tick at the drop threshold. -/
theorem c7_simulated_buy_frame_witness :
    tickEffects cfg_disabled c7wst c7winp = some (false, false, some LastAction.buy_simulated) ∧
    tickStrat cfg_disabled c7wst c7winp =
      some { c7wst.strat with
        session_high := some (sessionHighUpdate c7wst.strat.session_high 95) } :=
  c7_simulated_buy_frame cfg_disabled c7wst c7winp 95 rfl (by norm_num [c7wst]) rfl
    (by norm_num [c7wst, sessionHighUpdate])
    (by norm_num [c7wst, sessionHighUpdate, cfg_disabled])
    (by norm_num [c7winp, usdAvail, cfg_disabled])

/-- C8: once a last sell price is present it is still present after every
tick — no path clears it, a completed sell only overwrites it. -/
theorem c8_last_sell_preserved (cfg : Config) (st : BotState) (inp : TickInput)
    (h : st.strat.last_sell_price.isSome = true)
    (s : StrategyState) (hs : tickStrat cfg st inp = some s) :
    s.last_sell_price.isSome = true := by
  rcases hpx : inp.price with _ | p
  · rw [tickStrat, tick_price_none cfg st inp hpx] at hs
    simp at hs
    rw [← hs]
    exact h
  · rw [tickStrat] at hs
    simp only [tick, hpx] at hs
    by_cases hq : st.strat.position_qty ≤ 0
    · rw [if_pos hq] at hs
      have hs2 : (flatBranch cfg (preDecision cfg st inp p) p
          (usdAvail inp) inp.buy_order_ok).state.strat = s := by
        simpa using hs
      rw [← hs2, flatBranch_last_sell]
      exact h
    · rw [if_neg hq] at hs
      rcases hent : st.strat.entry_price with _ | e
      · rw [hent] at hs; simp at hs
      · rw [hent] at hs
        have hs2 : (sellBranch cfg (preDecision cfg st inp p) e p
            (xmrAvail inp) inp.sell_order_ok).state.strat = s := by
          simpa using hs
        rw [← hs2]
        rcases sellBranch_last_sell cfg (preDecision cfg st inp p) e p
            (xmrAvail inp) inp.sell_order_ok with h1 | h1 <;> rw [h1]
        · exact h
        · rfl

/-- C8 (witness): preservation applied to a concrete full sell that
overwrites the last sell price of 90 with 105. -/
theorem c8_last_sell_preserved_witness :
    (⟨0, none, some 105, some 105⟩ : StrategyState).last_sell_price.isSome = true :=
  c8_last_sell_preserved cfg0 c8wst c8winp (by norm_num [c8wst]) ⟨0, none, some 105, some 105⟩
    (by norm_num [tickStrat, tick, preDecision, flatBranch, sellBranch, sessionHighUpdate,
      buyBaseline, setLastAction, update_price_history, compute_24h_stats, usdAvail, xmrAvail,
      epsilon, seconds_24h, cfg0, c8wst, c8winp, initStatus])

/-- C9: from any state in which a positive position implies a recorded
entry price, the holding-branch assertion never fails, so the tick
completes for every price and balance input. -/
theorem c9_no_assertion_failure (cfg : Config) (st : BotState) (inp : TickInput)
    (h : 0 < st.strat.position_qty → st.strat.entry_price.isSome = true) :
    (tick cfg st inp).isSome = true := by
  rcases hpx : inp.price with _ | p
  · simp [tick_price_none cfg st inp hpx]
  · simp only [tick, hpx]
    by_cases hq : st.strat.position_qty ≤ 0
    · simp [hq]
    · have h2 := h (not_le.mp hq)
      rcases hent : st.strat.entry_price with _ | e
      · rw [hent] at h2; simp at h2
      · simp [hq, hent]

/-- C9 (witness): the no-failure theorem applied to a concrete holding
state below the rise threshold. -/
theorem c9_no_assertion_failure_witness : (tick cfg0 c9wst c9winp).isSome = true :=
  c9_no_assertion_failure cfg0 c9wst c9winp (by norm_num [c9wst])

/-- C10: a window insert never evicts its own sample, so the window is
non-empty, the 24h stats always carry a start price, and on every tick
whose price fetch succeeded the published snapshot's 24h start price is
present. -/
theorem c10_window_start_present (hist : List (ℚ × ℚ)) (now_ts price current : ℚ)
    (cfg : Config) (st : BotState) (inp : TickInput) (p : ℚ) (hp : inp.price = some p) :
    update_price_history hist now_ts price ≠ [] ∧
    (compute_24h_stats (update_price_history hist now_ts price) current).1.isSome = true ∧
    tickStartPresent cfg st inp = true := by
  refine ⟨update_price_history_ne_nil hist now_ts price,
    compute_24h_stats_isSome _ _ (update_price_history_ne_nil hist now_ts price), ?_⟩
  simp only [tickStartPresent, tick, hp]
  by_cases hq : st.strat.position_qty ≤ 0
  · rw [if_pos hq]
    simp only [flatBranch_start, preDecision_start]
    exact compute_24h_stats_isSome _ _ (update_price_history_ne_nil _ _ _)
  · rw [if_neg hq]
    rcases hent : st.strat.entry_price with _ | e
    · rfl
    · simp only [sellBranch_start, preDecision_start]
      exact compute_24h_stats_isSome _ _ (update_price_history_ne_nil _ _ _)

/-- C10 (witness): the start-price-present theorem applied to an empty
window, a concrete insert, and a concrete fresh tick. -/
theorem c10_window_start_present_witness :
    update_price_history [] 0 5 ≠ [] ∧
    (compute_24h_stats (update_price_history [] 0 5) 5).1.isSome = true ∧
    tickStartPresent cfg0 c10wst c10winp = true :=
  c10_window_start_present [] 0 5 5 cfg0 c10wst c10winp 7 rfl

end ThresholdBot
